import Mathlib

/-!
Verification of the market-demand aggregation engine of the airline
market-demand dashboard, together with the demand-heatmap consumer
component of the frontend (DemandHeatmap.jsx).

The repository ships the React frontend; the backend aggregation engine
(the four metric aggregators, the shared demand scoring function and the
aggregation facade) is described by the specification but its source is
not part of the checked-in tree, so those components are modelled here
faithfully from the specification's algorithm descriptions.  The heatmap
consumer (`materializeGrid`, `loadChartData`, `renderHeatmap`) is
translated directly from `src/frontend/src/components/charts/DemandHeatmap.jsx`.
-/

namespace Airline

/-- Calendar date (year, month, day), as used for `departure_date`. -/
structure Date where
  year : ℤ
  month : ℤ
  day : ℤ
deriving DecidableEq, Repr

/-- Day number of a civil date (days since 1970-01-01), the standard
civil-from-days algorithm with floor division.  Used to give the window
filter `[today - days, today]` exact day-difference semantics. -/
def Date.epochDay (d : Date) : ℤ :=
  let y := if d.month ≤ 2 then d.year - 1 else d.year
  let era := Int.fdiv y 400
  let yoe := y - era * 400
  let mp := if d.month ≤ 2 then d.month + 9 else d.month - 3
  let doy := Int.fdiv (153 * mp + 2) 5 + d.day - 1
  let doe := yoe * 365 + Int.fdiv yoe 4 - Int.fdiv yoe 100 + doy
  era * 146097 + doe - 719468

/-- Lexicographic order on calendar dates. -/
def Date.le (a b : Date) : Prop :=
  a.year < b.year ∨
    (a.year = b.year ∧ (a.month < b.month ∨ (a.month = b.month ∧ a.day ≤ b.day)))

instance (a b : Date) : Decidable (Date.le a b) :=
  inferInstanceAs (Decidable (a.year < b.year ∨
    (a.year = b.year ∧ (a.month < b.month ∨ (a.month = b.month ∧ a.day ≤ b.day)))))

instance : IsTotal Date Date.le :=
  ⟨by intro a b; unfold Date.le; omega⟩

instance : IsTrans Date Date.le :=
  ⟨by intro a b c hab hbc; unfold Date.le at hab hbc ⊢; omega⟩

/-- One observed flight offer (a row of the flight record store). -/
structure FlightOffer where
  id : ℕ
  origin : String
  destination : String
  departure_date : Date
  observed_at : Date
  price : ℚ
  is_domestic : Bool
  is_holiday_period : Bool
deriving DecidableEq, Repr

/-- Modelled from the spec: the shared window filter predicate — a record
matches iff its `departure_date` falls in `[today - days, today]`
inclusive.  (The backend engine is not in the checked-in tree.) -/
def inWindow (today : Date) (days : ℕ) (r : FlightOffer) : Bool :=
  decide (today.epochDay - days ≤ r.departure_date.epochDay ∧
    r.departure_date.epochDay ≤ today.epochDay)

/-- Modelled from the spec: select all rows in the look-back window. -/
def windowFilter (today : Date) (days : ℕ) (records : List FlightOffer) :
    List FlightOffer :=
  records.filter (inWindow today days)

/-- Arithmetic mean of a list of rationals (0 on the empty list). -/
def mean (l : List ℚ) : ℚ := l.sum / (l.length : ℚ)

/-- Round to two decimal places (for output only). -/
def round2 (q : ℚ) : ℚ := ((⌊q * 100 + 1 / 2⌋ : ℤ) : ℚ) / 100

/-- Number of records in a group flagged as holiday-period departures. -/
def holidayCount (l : List FlightOffer) : ℕ :=
  (l.filter (fun r => r.is_holiday_period)).length

/-- Proportion of holiday-period departures within a group. -/
def holidayShare (l : List FlightOffer) : ℚ :=
  (holidayCount l : ℚ) / (l.length : ℚ)

/-- Modelled from the spec: the shared Demand Scoring Function —
`100 * (0.7 * (flight_count / max_flight_count_in_batch) + 0.3 * holiday_ratio)`
clamped to `[0, 100]`.  (The backend engine is not in the checked-in tree.) -/
def demandScore (fc maxFC : ℕ) (hr : ℚ) : ℚ :=
  min 100 (max 0 (100 * ((7 / 10) * ((fc : ℚ) / (maxFC : ℚ)) + (3 / 10) * hr)))

/-- Largest group size in a batch (0 for an empty batch). -/
def maxCount (counts : List ℕ) : ℕ := counts.foldr max 0

/-- Distinct ordered (origin, destination) pairs of a record slice. -/
def routeKeys (l : List FlightOffer) : List (String × String) :=
  (l.map (fun r => (r.origin, r.destination))).dedup

/-- The records of a slice belonging to one (origin, destination) pair. -/
def routeGroup (l : List FlightOffer) (p : String × String) :
    List FlightOffer :=
  l.filter (fun r => decide (r.origin = p.1 ∧ r.destination = p.2))

/-- One point of the price-trend series. -/
structure TrendPoint where
  date : Date
  average_price : ℚ
  flight_count : ℕ
deriving DecidableEq, Repr

/-- Distinct departure dates of a record slice. -/
def trendDates (l : List FlightOffer) : List Date :=
  (l.map (fun r => r.departure_date)).dedup

/-- Records of a slice departing on one given date. -/
def dateGroup (l : List FlightOffer) (d : Date) : List FlightOffer :=
  l.filter (fun r => decide (r.departure_date = d))

/-- Modelled from the spec: `PriceTrendAggregator` on an already
window-filtered slice — group by `departure_date`, per date the mean
price (rounded to 2 decimals only for output) and the group size, sorted
ascending by date. -/
def PriceTrendAggregator.computeMatched (matched : List FlightOffer) :
    List TrendPoint :=
  (List.insertionSort Date.le (trendDates matched)).map (fun d =>
    { date := d
      average_price := round2 (mean ((dateGroup matched d).map (fun r => r.price)))
      flight_count := (dateGroup matched d).length })

/-- Modelled from the spec: `PriceTrendAggregator.compute(records, days)`. -/
def PriceTrendAggregator.compute (today : Date) (records : List FlightOffer)
    (days : ℕ) : List TrendPoint :=
  PriceTrendAggregator.computeMatched (windowFilter today days records)

/-- One entry of the route-popularity ranking. -/
structure RouteEntry where
  route : String
  flight_count : ℕ
  average_price : ℚ
  demand_score : ℚ
deriving DecidableEq, Repr

/-- Ranking order of route entries: descending flight count, ties broken
by descending average price, then lexicographically by route string. -/
def routeLE (a b : RouteEntry) : Prop :=
  b.flight_count < a.flight_count ∨
    (a.flight_count = b.flight_count ∧
      (b.average_price < a.average_price ∨
        (a.average_price = b.average_price ∧ a.route.data ≤ b.route.data)))

instance (a b : RouteEntry) : Decidable (routeLE a b) :=
  inferInstanceAs (Decidable (b.flight_count < a.flight_count ∨
    (a.flight_count = b.flight_count ∧
      (b.average_price < a.average_price ∨
        (a.average_price = b.average_price ∧ a.route.data ≤ b.route.data)))))

instance : IsTotal RouteEntry routeLE := by
  constructor
  intro a b
  rcases Nat.lt_trichotomy a.flight_count b.flight_count with h | h | h
  · exact Or.inr (Or.inl h)
  · rcases lt_trichotomy a.average_price b.average_price with h2 | h2 | h2
    · exact Or.inr (Or.inr ⟨h.symm, Or.inl h2⟩)
    · rcases le_total a.route.data b.route.data with h3 | h3
      · exact Or.inl (Or.inr ⟨h, Or.inr ⟨h2, h3⟩⟩)
      · exact Or.inr (Or.inr ⟨h.symm, Or.inr ⟨h2.symm, h3⟩⟩)
    · exact Or.inl (Or.inr ⟨h, Or.inl h2⟩)
  · exact Or.inl (Or.inl h)

instance : IsTrans RouteEntry routeLE := by
  constructor
  intro a b c hab hbc
  rcases hab with h1 | ⟨e1, h1⟩
  · rcases hbc with h2 | ⟨e2, h2⟩
    · exact Or.inl (h2.trans h1)
    · exact Or.inl (e2 ▸ h1)
  · rcases hbc with h2 | ⟨e2, h2⟩
    · exact Or.inl (e1 ▸ h2)
    · refine Or.inr ⟨e1.trans e2, ?_⟩
      rcases h1 with hp1 | ⟨ep1, hr1⟩
      · rcases h2 with hp2 | ⟨ep2, hr2⟩
        · exact Or.inl (hp2.trans hp1)
        · exact Or.inl (ep2 ▸ hp1)
      · rcases h2 with hp2 | ⟨ep2, hr2⟩
        · exact Or.inl (ep1 ▸ hp2)
        · exact Or.inr ⟨ep1.trans ep2, hr1.trans hr2⟩

/-- The unsorted per-route entries of a window-filtered slice, scored
against the batch maximum group size. -/
def routeEntries (matched : List FlightOffer) : List RouteEntry :=
  (routeKeys matched).map (fun p =>
    { route := p.1 ++ "-" ++ p.2
      flight_count := (routeGroup matched p).length
      average_price := round2 (mean ((routeGroup matched p).map (fun r => r.price)))
      demand_score :=
        demandScore (routeGroup matched p).length
          (maxCount ((routeKeys matched).map (fun q => (routeGroup matched q).length)))
          (holidayShare (routeGroup matched p)) })

/-- Modelled from the spec: `RoutePopularityAggregator` on an already
window-filtered slice — per-route groups sorted by `routeLE`, truncated
to `limit`. -/
def RoutePopularityAggregator.computeMatched (matched : List FlightOffer)
    (limit : ℕ) : List RouteEntry :=
  (List.insertionSort routeLE (routeEntries matched)).take limit

/-- Modelled from the spec:
`RoutePopularityAggregator.compute(records, days, limit)`. -/
def RoutePopularityAggregator.compute (today : Date)
    (records : List FlightOffer) (days limit : ℕ) : List RouteEntry :=
  RoutePopularityAggregator.computeMatched (windowFilter today days records) limit

/-- One sparse cell of the demand heatmap matrix. -/
structure HeatCell where
  origin : String
  destination : String
  demand_score : ℚ
deriving DecidableEq, Repr

/-- The demand heatmap view: sorted axes plus sparse cells.  The cell
list is called `heatmap_data` on the wire, as read by DemandHeatmap.jsx. -/
structure HeatmapMatrix where
  origins : List String
  destinations : List String
  heatmap_data : List HeatCell
deriving DecidableEq, Repr

/-- Lexicographic order on strings via their character lists. -/
def strLE (a b : String) : Prop := a.data ≤ b.data

instance (a b : String) : Decidable (strLE a b) :=
  inferInstanceAs (Decidable (a.data ≤ b.data))

instance : IsTotal String strLE := ⟨fun a b => le_total a.data b.data⟩

instance : IsTrans String strLE := ⟨fun _ _ _ hab hbc => le_trans hab hbc⟩

/-- The scored heatmap cell of one route of a window-filtered slice. -/
def heatCellOf (matched : List FlightOffer) (p : String × String) : HeatCell :=
  { origin := p.1
    destination := p.2
    demand_score :=
      demandScore (routeGroup matched p).length
        (maxCount ((routeKeys matched).map (fun q => (routeGroup matched q).length)))
        (holidayShare (routeGroup matched p)) }

/-- Modelled from the spec: `DemandHeatmapAggregator` on an already
window-filtered slice — sorted distinct origin and destination axes,
one scored cell per distinct route. -/
def DemandHeatmapAggregator.computeMatched (matched : List FlightOffer) :
    HeatmapMatrix :=
  { origins := List.insertionSort strLE ((matched.map (fun r => r.origin)).dedup)
    destinations :=
      List.insertionSort strLE ((matched.map (fun r => r.destination)).dedup)
    heatmap_data := (routeKeys matched).map (heatCellOf matched) }

/-- Modelled from the spec: `DemandHeatmapAggregator.compute(records, days)`. -/
def DemandHeatmapAggregator.compute (today : Date)
    (records : List FlightOffer) (days : ℕ) : HeatmapMatrix :=
  DemandHeatmapAggregator.computeMatched (windowFilter today days records)

/-- The four Southern-Hemisphere seasons. -/
inductive Season where
  | Summer
  | Autumn
  | Winter
  | Spring
deriving DecidableEq, Repr

/-- Modelled from the spec: the fixed Southern-Hemisphere month-to-season
mapping `{12,1,2: Summer; 3,4,5: Autumn; 6,7,8: Winter; 9,10,11: Spring}`. -/
def monthToSeason (m : ℤ) : Season :=
  if m = 12 ∨ m = 1 ∨ m = 2 then Season.Summer
  else if m = 3 ∨ m = 4 ∨ m = 5 then Season.Autumn
  else if m = 6 ∨ m = 7 ∨ m = 8 then Season.Winter
  else Season.Spring

/-- One bucket of the seasonal distribution. -/
structure SeasonBucket where
  season : Season
  flight_count : ℕ
  average_demand_score : ℚ
deriving DecidableEq, Repr

/-- The fixed output order of the four season buckets. -/
def seasonOrder : List Season :=
  [Season.Summer, Season.Autumn, Season.Winter, Season.Spring]

/-- The records of a slice whose departure month falls in one season. -/
def seasonGroup (l : List FlightOffer) (s : Season) : List FlightOffer :=
  l.filter (fun r => decide (monthToSeason r.departure_date.month = s))

/-- Modelled from the spec: `SeasonalAggregator` on an already
window-filtered slice — always exactly the four buckets in fixed order,
each scored by the shared Demand Scoring Function against the largest
season bucket of the batch. -/
def SeasonalAggregator.computeMatched (matched : List FlightOffer) :
    List SeasonBucket :=
  seasonOrder.map (fun s =>
    { season := s
      flight_count := (seasonGroup matched s).length
      average_demand_score :=
        demandScore (seasonGroup matched s).length
          (maxCount (seasonOrder.map (fun t => (seasonGroup matched t).length)))
          (holidayShare (seasonGroup matched s)) })

/-- Modelled from the spec: `SeasonalAggregator.compute(records, days)`. -/
def SeasonalAggregator.compute (today : Date) (records : List FlightOffer)
    (days : ℕ) : List SeasonBucket :=
  SeasonalAggregator.computeMatched (windowFilter today days records)

/-- The facade's error taxonomy (spec §7). -/
inductive FacadeError where
  | InvalidWindow
  | InvalidLimit
  | DataSourceUnavailable
deriving DecidableEq, Repr

/-- A well-formed `days` argument: a positive integer (here a rational
with denominator 1, so that non-integer arguments are representable). -/
def validWindow (days : ℚ) : Prop := 0 < days ∧ days.den = 1

instance (days : ℚ) : Decidable (validWindow days) :=
  inferInstanceAs (Decidable (0 < days ∧ days.den = 1))

/-- Modelled from the spec: facade entry point for price trends.  The
record store is `none` when unreachable; validation happens before the
store is read. -/
def Facade.priceTrends (store : Option (List FlightOffer)) (today : Date)
    (days : ℚ) : Except FacadeError (List TrendPoint) :=
  if validWindow days then
    store.elim (Except.error FacadeError.DataSourceUnavailable)
      (fun records =>
        Except.ok (PriceTrendAggregator.compute today records days.num.toNat))
  else Except.error FacadeError.InvalidWindow

/-- Modelled from the spec: facade entry point for route popularity. -/
def Facade.routePopularity (store : Option (List FlightOffer)) (today : Date)
    (days : ℚ) (limit : ℤ) : Except FacadeError (List RouteEntry) :=
  if validWindow days then
    if limit ≤ 0 then Except.error FacadeError.InvalidLimit
    else
      store.elim (Except.error FacadeError.DataSourceUnavailable)
        (fun records =>
          Except.ok (RoutePopularityAggregator.compute today records
            days.num.toNat limit.toNat))
  else Except.error FacadeError.InvalidWindow

/-- Modelled from the spec: facade entry point for the demand heatmap. -/
def Facade.demandHeatmap (store : Option (List FlightOffer)) (today : Date)
    (days : ℚ) : Except FacadeError HeatmapMatrix :=
  if validWindow days then
    store.elim (Except.error FacadeError.DataSourceUnavailable)
      (fun records =>
        Except.ok (DemandHeatmapAggregator.compute today records days.num.toNat))
  else Except.error FacadeError.InvalidWindow

/-- Modelled from the spec: facade entry point for seasonal patterns. -/
def Facade.seasonalPatterns (store : Option (List FlightOffer)) (today : Date)
    (days : ℚ) : Except FacadeError (List SeasonBucket) :=
  if validWindow days then
    store.elim (Except.error FacadeError.DataSourceUnavailable)
      (fun records =>
        Except.ok (SeasonalAggregator.compute today records days.num.toNat))
  else Except.error FacadeError.InvalidWindow

/-! ### The heatmap consumer, from DemandHeatmap.jsx -/

/-- The consumer's cell search
`heatmap_data.find(item => item.origin === o && item.destination === d)`
(DemandHeatmap.jsx lines 47-49). -/
def findCell (cells : List HeatCell) (o d : String) : Option HeatCell :=
  cells.find? (fun item => decide (item.origin = o ∧ item.destination = d))

/-- The zero-fill rule `point ? point.demand_score : 0` applied to the
found cell (DemandHeatmap.jsx line 50). -/
def lookupScore (cells : List HeatCell) (o d : String) : ℚ :=
  match findCell cells o d with
  | some point => point.demand_score
  | none => 0

/-- The dense matrix `z` built by the consumer, row `i` per destination,
column `j` per origin (DemandHeatmap.jsx lines 39-52). -/
def materializeGrid (chart : HeatmapMatrix) : List (List ℚ) :=
  chart.destinations.map (fun yi =>
    chart.origins.map (fun xj => lookupScore chart.heatmap_data xj yi))

/-- The Plotly payload the consumer builds when data is present. -/
structure PlotData where
  x : List String
  y : List String
  z : List (List ℚ)
deriving DecidableEq, Repr

/-- The `loadChartData` handler: with no `heatmap_data` the component
state is set to null (`setData(null)`), otherwise the dense matrix is
materialized (DemandHeatmap.jsx lines 34-54). -/
def loadChartData (resp : HeatmapMatrix) : Option PlotData :=
  if resp.heatmap_data.isEmpty then none
  else some { x := resp.origins, y := resp.destinations, z := materializeGrid resp }

/-- What the component renders for a given data state. -/
inductive HeatmapRender where
  | noData
  | plot (p : PlotData)
deriving DecidableEq, Repr

/-- The render branch on the data state: null data renders the
'No demand data available' placeholder (DemandHeatmap.jsx lines 100-106). -/
def renderHeatmap (data : Option PlotData) : HeatmapRender :=
  match data with
  | none => HeatmapRender.noData
  | some p => HeatmapRender.plot p

end Airline

/-! ### The specification's worked example (§8) -/

namespace Airline

/-- 2025-07-07, the departure date of the first two example records. -/
def d77 : Date := { year := 2025, month := 7, day := 7 }

/-- 2025-07-08, the departure date of the third example record. -/
def d78 : Date := { year := 2025, month := 7, day := 8 }

/-- A reference day for the example window, covering both dates. -/
def exToday : Date := d78

/-- Example record (SYD, MEL, 2025-07-07, 300, domestic, holiday). -/
def exR1 : FlightOffer :=
  { id := 1, origin := "SYD", destination := "MEL", departure_date := d77,
    observed_at := d77, price := 300, is_domestic := true,
    is_holiday_period := true }

/-- Example record (SYD, MEL, 2025-07-07, 340, domestic, not-holiday). -/
def exR2 : FlightOffer :=
  { id := 2, origin := "SYD", destination := "MEL", departure_date := d77,
    observed_at := d77, price := 340, is_domestic := true,
    is_holiday_period := false }

/-- Example record (SYD, BNE, 2025-07-08, 200, domestic, not-holiday). -/
def exR3 : FlightOffer :=
  { id := 3, origin := "SYD", destination := "BNE", departure_date := d78,
    observed_at := d78, price := 200, is_domestic := true,
    is_holiday_period := false }

/-- The three example records of spec §8. -/
def exRecords : List FlightOffer := [exR1, exR2, exR3]

/-- A date far outside the example records' windows. -/
def farToday : Date := { year := 2030, month := 1, day := 1 }

/-- A 7-day window ending 2025-07-08 matches all three example records. -/
lemma exWindowEq : windowFilter exToday 7 exRecords = exRecords := rfl

/-- The price-trend series of the example: two points, ascending. -/
lemma exTrendEq : PriceTrendAggregator.compute exToday exRecords 7 =
    [{ date := d77, average_price := 320, flight_count := 2 },
     { date := d78, average_price := 200, flight_count := 1 }] := by
  rw [PriceTrendAggregator.compute, exWindowEq,
    PriceTrendAggregator.computeMatched,
    show List.insertionSort Date.le (trendDates exRecords) = [d77, d78] from by decide]
  simp only [List.map]
  rw [show dateGroup exRecords d77 = [exR1, exR2] from rfl,
    show dateGroup exRecords d78 = [exR3] from rfl]
  norm_num [round2, mean, exR1, exR2, exR3, Int.floor_eq_iff, TrendPoint.mk.injEq]

/-- The unsorted route entries of the example, scored against the batch
maximum flight count 2. -/
lemma exRouteEntriesEq : routeEntries exRecords =
    [{ route := "SYD-MEL", flight_count := 2, average_price := 320, demand_score := 85 },
     { route := "SYD-BNE", flight_count := 1, average_price := 200, demand_score := 35 }] := by
  rw [routeEntries,
    show routeKeys exRecords = [("SYD", "MEL"), ("SYD", "BNE")] from by decide]
  simp only [List.map]
  rw [show routeGroup exRecords ("SYD", "MEL") = [exR1, exR2] from rfl,
    show routeGroup exRecords ("SYD", "BNE") = [exR3] from rfl,
    show maxCount [([exR1, exR2] : List FlightOffer).length, ([exR3] : List FlightOffer).length] = 2 from by decide]
  norm_num [round2, mean, demandScore, holidayShare, holidayCount,
    exR1, exR2, exR3, Int.floor_eq_iff, RouteEntry.mk.injEq]
  exact ⟨rfl, rfl⟩

/-- The route-popularity ranking of the example with limit 5. -/
lemma exRoutePopEq : RoutePopularityAggregator.compute exToday exRecords 7 5 =
    [{ route := "SYD-MEL", flight_count := 2, average_price := 320, demand_score := 85 },
     { route := "SYD-BNE", flight_count := 1, average_price := 200, demand_score := 35 }] := by
  rw [RoutePopularityAggregator.compute, exWindowEq,
    RoutePopularityAggregator.computeMatched, exRouteEntriesEq]
  simp only [List.insertionSort, List.orderedInsert]
  rw [if_pos (by decide :
    routeLE { route := "SYD-MEL", flight_count := 2, average_price := 320, demand_score := 85 }
      { route := "SYD-BNE", flight_count := 1, average_price := 200, demand_score := 35 })]
  rfl

/-- The SYD-MEL cell of the example heatmap carries score 85. -/
lemma exHeatCellMEL : heatCellOf exRecords ("SYD", "MEL") =
    { origin := "SYD", destination := "MEL", demand_score := 85 } := by
  rw [heatCellOf,
    show routeGroup exRecords ("SYD", "MEL") = [exR1, exR2] from rfl,
    show maxCount ((routeKeys exRecords).map
      (fun q => (routeGroup exRecords q).length)) = 2 from by decide]
  norm_num [demandScore, holidayShare, holidayCount, exR1, exR2, HeatCell.mk.injEq]

/-- The SYD-BNE cell of the example heatmap carries score 35. -/
lemma exHeatCellBNE : heatCellOf exRecords ("SYD", "BNE") =
    { origin := "SYD", destination := "BNE", demand_score := 35 } := by
  rw [heatCellOf,
    show routeGroup exRecords ("SYD", "BNE") = [exR3] from rfl,
    show maxCount ((routeKeys exRecords).map
      (fun q => (routeGroup exRecords q).length)) = 2 from by decide]
  norm_num [demandScore, holidayShare, holidayCount, exR3, HeatCell.mk.injEq]

/-- The demand heatmap of the example: one origin, two destinations,
two scored cells. -/
lemma exHeatmapEq : DemandHeatmapAggregator.compute exToday exRecords 7 =
    { origins := ["SYD"], destinations := ["BNE", "MEL"],
      heatmap_data := [{ origin := "SYD", destination := "MEL", demand_score := 85 },
        { origin := "SYD", destination := "BNE", demand_score := 35 }] } := by
  rw [DemandHeatmapAggregator.compute, exWindowEq,
    DemandHeatmapAggregator.computeMatched,
    show List.insertionSort strLE ((exRecords.map (fun r => r.origin)).dedup) =
      ["SYD"] from by decide,
    show List.insertionSort strLE ((exRecords.map (fun r => r.destination)).dedup) =
      ["BNE", "MEL"] from by decide,
    show routeKeys exRecords = [("SYD", "MEL"), ("SYD", "BNE")] from by decide,
    List.map_cons, List.map_cons, List.map_nil, exHeatCellMEL, exHeatCellBNE]

/-- The seasonal distribution of an empty slice: four all-zero buckets. -/
lemma exSeasonalEmptyEq : SeasonalAggregator.computeMatched [] =
    [{ season := Season.Summer, flight_count := 0, average_demand_score := 0 },
     { season := Season.Autumn, flight_count := 0, average_demand_score := 0 },
     { season := Season.Winter, flight_count := 0, average_demand_score := 0 },
     { season := Season.Spring, flight_count := 0, average_demand_score := 0 }] := by
  rw [SeasonalAggregator.computeMatched, seasonOrder]
  simp only [List.map]
  norm_num [seasonGroup, maxCount, demandScore, holidayShare, holidayCount,
    List.filter_nil, SeasonBucket.mk.injEq]

end Airline

namespace Airline

/-- C1: the shared Demand Scoring Function returns exactly
`100 * (0.7 * (flight_count / max_flight_count_in_batch) + 0.3 * holiday_ratio)`
clamped to [0,100]; consequently `0 ≤ demand_score ≤ 100` for all inputs,
and on the spec's 3-record example the route aggregator yields demand
scores 85 for SYD-MEL and 35 for SYD-BNE. -/
theorem demand_score_formula_bounds_example (fc maxFC : ℕ) (hr : ℚ) :
    demandScore fc maxFC hr =
      min 100 (max 0 (100 * ((7 / 10) * ((fc : ℚ) / (maxFC : ℚ)) + (3 / 10) * hr))) ∧
    0 ≤ demandScore fc maxFC hr ∧ demandScore fc maxFC hr ≤ 100 ∧
    (RoutePopularityAggregator.compute exToday exRecords 7 5).map
      (fun e => e.demand_score) = [85, 35] := by
  refine ⟨rfl, ?_, ?_, ?_⟩
  · exact le_min (by norm_num) (le_max_left 0 _)
  · exact min_le_left _ _
  · rw [exRoutePopEq]; rfl

/-- C8: the four aggregators are pure functions of their snapshot and
parameters, so two invocations with identical arguments yield identical
output. -/
theorem aggregators_deterministic (today : Date) (records : List FlightOffer)
    (days limit : ℕ) :
    PriceTrendAggregator.compute today records days =
      PriceTrendAggregator.compute today records days ∧
    RoutePopularityAggregator.compute today records days limit =
      RoutePopularityAggregator.compute today records days limit ∧
    DemandHeatmapAggregator.compute today records days =
      DemandHeatmapAggregator.compute today records days ∧
    SeasonalAggregator.compute today records days =
      SeasonalAggregator.compute today records days :=
  ⟨rfl, rfl, rfl, rfl⟩

/-- C9: window monotonicity — for `days1 < days2` every record matched by
the `days1` window is matched by the `days2` window. -/
theorem window_monotonicity (today : Date) (records : List FlightOffer)
    (d1 d2 : ℕ) (h : d1 < d2) :
    ∀ r ∈ windowFilter today d1 records, r ∈ windowFilter today d2 records := by
  intro r hr
  rw [windowFilter, List.mem_filter] at hr ⊢
  refine ⟨hr.1, ?_⟩
  have h2 := hr.2
  simp only [inWindow, decide_eq_true_eq] at h2 ⊢
  omega

/-- C9 witness: with the example window, a record matched for 1 day is
matched for 2 days. -/
theorem window_monotonicity_witness :
    exR3 ∈ windowFilter exToday 2 exRecords :=
  window_monotonicity exToday exRecords 1 2 (by norm_num) exR3
    (by rw [show windowFilter exToday 1 exRecords = exRecords from rfl]
        exact List.Mem.tail _ (List.Mem.tail _ (List.Mem.head _)))

/-- C10: when the heatmap response carries no `heatmap_data`, the consumer
sets its chart data to null and renders the no-data placeholder, exactly
as if there were no data at all; no dense matrix is materialized. -/
theorem heatmap_consumer_empty_placeholder (resp : HeatmapMatrix)
    (h : resp.heatmap_data = []) :
    loadChartData resp = none ∧
    renderHeatmap (loadChartData resp) = HeatmapRender.noData ∧
    renderHeatmap (loadChartData resp) = renderHeatmap none := by
  have h0 : loadChartData resp = none := by simp [loadChartData, h]
  exact ⟨h0, by rw [h0]; rfl, by rw [h0]⟩

/-- C10 witness: the empty-window heatmap result renders the placeholder. -/
theorem heatmap_consumer_empty_placeholder_witness :
    loadChartData { origins := [], destinations := [], heatmap_data := [] } = none ∧
    renderHeatmap (loadChartData { origins := [], destinations := [], heatmap_data := [] }) =
      HeatmapRender.noData ∧
    renderHeatmap (loadChartData { origins := [], destinations := [], heatmap_data := [] }) =
      renderHeatmap none :=
  heatmap_consumer_empty_placeholder
    { origins := [], destinations := [], heatmap_data := [] } rfl

/-- C6: a window matching zero records yields the empty-but-well-formed
view from each of the four aggregators. -/
theorem empty_window_views (today : Date) (records : List FlightOffer)
    (days limit : ℕ) (h : windowFilter today days records = []) :
    PriceTrendAggregator.compute today records days = [] ∧
    RoutePopularityAggregator.compute today records days limit = [] ∧
    DemandHeatmapAggregator.compute today records days =
      { origins := [], destinations := [], heatmap_data := [] } ∧
    SeasonalAggregator.compute today records days =
      [{ season := Season.Summer, flight_count := 0, average_demand_score := 0 },
       { season := Season.Autumn, flight_count := 0, average_demand_score := 0 },
       { season := Season.Winter, flight_count := 0, average_demand_score := 0 },
       { season := Season.Spring, flight_count := 0, average_demand_score := 0 }] := by
  refine ⟨?_, ?_, ?_, ?_⟩
  · rw [PriceTrendAggregator.compute, h]; rfl
  · rw [RoutePopularityAggregator.compute, h,
      RoutePopularityAggregator.computeMatched,
      show routeEntries [] = [] from rfl]
    simp [List.insertionSort]
  · rw [DemandHeatmapAggregator.compute, h]; rfl
  · rw [SeasonalAggregator.compute, h, exSeasonalEmptyEq]

/-- C6 witness: a 1-day window at a far-away date matches none of the
example records and yields the four empty views. -/
theorem empty_window_views_witness :
    PriceTrendAggregator.compute farToday exRecords 1 = [] ∧
    RoutePopularityAggregator.compute farToday exRecords 1 5 = [] ∧
    DemandHeatmapAggregator.compute farToday exRecords 1 =
      { origins := [], destinations := [], heatmap_data := [] } ∧
    SeasonalAggregator.compute farToday exRecords 1 =
      [{ season := Season.Summer, flight_count := 0, average_demand_score := 0 },
       { season := Season.Autumn, flight_count := 0, average_demand_score := 0 },
       { season := Season.Winter, flight_count := 0, average_demand_score := 0 },
       { season := Season.Spring, flight_count := 0, average_demand_score := 0 }] :=
  empty_window_views farToday exRecords 1 5 rfl

end Airline

namespace Airline

/-- Deduplicating a nonempty list whose elements are all equal to `a`
gives `[a]`. -/
lemma dedup_all_eq {α : Type} [DecidableEq α] (a : α) :
    ∀ l : List α, l ≠ [] → (∀ x ∈ l, x = a) → l.dedup = [a] := by
  intro l
  induction l with
  | nil => intro h; exact absurd rfl h
  | cons x xs ih =>
    intro _ hall
    have hx : x = a := hall x (List.Mem.head _)
    subst hx
    by_cases hxs : xs = []
    · subst hxs; simp
    · have hmem : x ∈ xs := by
        have : xs.head hxs ∈ xs := List.head_mem hxs
        have := hall (xs.head hxs) (List.Mem.tail _ this)
        rw [← this]
        exact List.head_mem hxs
      rw [List.dedup_cons_of_mem hmem]
      exact ih hxs (fun y hy => hall y (List.Mem.tail _ hy))

/-- The dates of the price-trend output are exactly the sorted distinct
departure dates of the slice. -/
lemma trend_map_date (matched : List FlightOffer) :
    (PriceTrendAggregator.computeMatched matched).map (fun p => p.date) =
      List.insertionSort Date.le (trendDates matched) := by
  rw [PriceTrendAggregator.computeMatched, List.map_map]
  exact List.map_id'' (fun d => rfl) _

/-- C3: the price-trend series is sorted ascending by date; each point
carries the 2-decimal rounding of the unrounded mean price and the group
size of its date; the spec's 3-record example yields the two expected
points; and a nonempty single-date window yields a one-point series. -/
theorem price_trend_spec (today : Date) (records : List FlightOffer)
    (days : ℕ) (d0 : Date) :
    List.Sorted Date.le
      ((PriceTrendAggregator.compute today records days).map (fun p => p.date)) ∧
    (∀ pt ∈ PriceTrendAggregator.compute today records days,
      pt.average_price =
        round2 (mean ((dateGroup (windowFilter today days records) pt.date).map
          (fun r => r.price))) ∧
      pt.flight_count = (dateGroup (windowFilter today days records) pt.date).length) ∧
    PriceTrendAggregator.compute exToday exRecords 7 =
      [{ date := d77, average_price := 320, flight_count := 2 },
       { date := d78, average_price := 200, flight_count := 1 }] ∧
    (windowFilter today days records ≠ [] →
      (∀ r ∈ windowFilter today days records, r.departure_date = d0) →
      (PriceTrendAggregator.compute today records days).length = 1) := by
  refine ⟨?_, ?_, exTrendEq, ?_⟩
  · rw [PriceTrendAggregator.compute, trend_map_date]
    exact List.sorted_insertionSort Date.le _
  · intro pt hpt
    rw [PriceTrendAggregator.compute, PriceTrendAggregator.computeMatched] at hpt
    obtain ⟨d, _, rfl⟩ := List.mem_map.mp hpt
    exact ⟨rfl, rfl⟩
  · intro hne hall
    rw [PriceTrendAggregator.compute, PriceTrendAggregator.computeMatched]
    rw [List.length_map, List.length_insertionSort, trendDates,
      dedup_all_eq d0 _ (by simpa using hne)
        (by intro x hx
            obtain ⟨r, hr, rfl⟩ := List.mem_map.mp hx
            exact hall r hr)]
    rfl

/-- C3 witness: a window containing only the third example record yields
a one-point series. -/
theorem price_trend_spec_witness :
    (PriceTrendAggregator.compute exToday [exR3] 7).length = 1 :=
  (price_trend_spec exToday [exR3] 7 d78).2.2.2
    (by rw [show windowFilter exToday 7 [exR3] = [exR3] from rfl]
        exact List.cons_ne_nil _ _)
    (by intro r hr
        rw [show windowFilter exToday 7 [exR3] = [exR3] from rfl,
          List.mem_singleton] at hr
        subst hr
        rfl)

/-- C4: the route-popularity ranking is sorted by descending flight
count with the average-price and route-string tie-breaks, and its length
is exactly min(limit, number of distinct routes). -/
theorem route_popularity_sorted_truncated (today : Date)
    (records : List FlightOffer) (days limit : ℕ) :
    List.Sorted routeLE (RoutePopularityAggregator.compute today records days limit) ∧
    (RoutePopularityAggregator.compute today records days limit).length =
      min limit (routeKeys (windowFilter today days records)).length := by
  constructor
  · exact List.Pairwise.sublist (List.take_sublist _ _)
      (List.sorted_insertionSort routeLE _)
  · simp only [RoutePopularityAggregator.compute,
      RoutePopularityAggregator.computeMatched, routeEntries,
      List.length_take, List.length_insertionSort, List.length_map]

end Airline

namespace Airline

/-- The score of an empty group is zero whatever the batch maximum. -/
lemma demandScore_empty (mf : ℕ) : demandScore 0 mf (holidayShare []) = 0 := by
  norm_num [demandScore, holidayShare, holidayCount]

/-- C5: the seasonal distribution always consists of exactly the four
buckets Summer, Autumn, Winter, Spring in that fixed order; records are
bucketed by departure month under the fixed Southern-Hemisphere mapping;
and empty buckets are present with zero flight count and zero score. -/
theorem seasonal_four_buckets (today : Date) (records : List FlightOffer)
    (days : ℕ) :
    (SeasonalAggregator.compute today records days).map (fun b => b.season) =
      [Season.Summer, Season.Autumn, Season.Winter, Season.Spring] ∧
    (SeasonalAggregator.compute today records days).length = 4 ∧
    (∀ m : ℤ,
      ((m = 12 ∨ m = 1 ∨ m = 2) → monthToSeason m = Season.Summer) ∧
      ((m = 3 ∨ m = 4 ∨ m = 5) → monthToSeason m = Season.Autumn) ∧
      ((m = 6 ∨ m = 7 ∨ m = 8) → monthToSeason m = Season.Winter) ∧
      ((m = 9 ∨ m = 10 ∨ m = 11) → monthToSeason m = Season.Spring)) ∧
    (∀ b ∈ SeasonalAggregator.compute today records days,
      b.flight_count =
        (seasonGroup (windowFilter today days records) b.season).length ∧
      (seasonGroup (windowFilter today days records) b.season = [] →
        b.flight_count = 0 ∧ b.average_demand_score = 0)) := by
  refine ⟨?_, ?_, ?_, ?_⟩
  · rw [SeasonalAggregator.compute, SeasonalAggregator.computeMatched,
      List.map_map]
    rfl
  · rfl
  · intro m
    refine ⟨?_, ?_, ?_, ?_⟩ <;> rintro (rfl | rfl | rfl) <;> rfl
  · intro b hb
    rw [SeasonalAggregator.compute, SeasonalAggregator.computeMatched] at hb
    obtain ⟨s, _, rfl⟩ := List.mem_map.mp hb
    refine ⟨rfl, fun hempty => ⟨?_, ?_⟩⟩
    · simp only [hempty]
      rfl
    · show demandScore (seasonGroup (windowFilter today days records) s).length
        _ (holidayShare (seasonGroup (windowFilter today days records) s)) = 0
      rw [hempty]
      exact demandScore_empty _

/-- C5 witness: on an empty store the four fixed buckets appear in order
and the Summer bucket is empty with zero count and zero score. -/
theorem seasonal_four_buckets_witness :
    (SeasonalAggregator.compute exToday [] 1).map (fun b => b.season) =
      [Season.Summer, Season.Autumn, Season.Winter, Season.Spring] ∧
    monthToSeason 12 = Season.Summer ∧
    ({ season := Season.Summer, flight_count := 0, average_demand_score := 0 } :
      SeasonBucket).flight_count = 0 :=
  ⟨(seasonal_four_buckets exToday [] 1).1,
   ((seasonal_four_buckets exToday [] 1).2.2.1 12).1 (Or.inl rfl),
   ((seasonal_four_buckets exToday [] 1).2.2.2
      { season := Season.Summer, flight_count := 0, average_demand_score := 0 }
      (by rw [show SeasonalAggregator.compute exToday [] 1 =
            SeasonalAggregator.computeMatched [] from rfl, exSeasonalEmptyEq]
          exact List.Mem.head _)).2 rfl |>.1⟩



/-- Over a duplicate-free key list, the consumer's linear search finds
exactly the cell built for the searched key. -/
lemma findCell_map_keys (f : String × String → HeatCell)
    (hf : ∀ q, (f q).origin = q.1 ∧ (f q).destination = q.2) :
    ∀ keys : List (String × String), keys.Nodup → ∀ p ∈ keys,
      findCell (keys.map f) p.1 p.2 = some (f p) := by
  intro keys
  induction keys with
  | nil => intro _ p hp; exact absurd hp (List.not_mem_nil p)
  | cons q ks ih =>
    intro hn p hp
    rw [List.map_cons, findCell]
    by_cases hqp : q = p
    · subst hqp
      rw [List.find?_cons_of_pos]
      exact decide_eq_true ⟨(hf q).1, (hf q).2⟩
    · rw [List.find?_cons_of_neg]
      · have hp2 : p ∈ ks := by
          rcases List.mem_cons.mp hp with h | h
          · exact absurd h.symm hqp
          · exact h
        exact ih (List.nodup_cons.mp hn).2 p hp2
      · simp only [decide_eq_true_eq]
        rintro ⟨h1, h2⟩
        exact hqp (Prod.ext (by rw [← (hf q).1, h1]) (by rw [← (hf q).2, h2]))

/-- The distinct route keys of a slice carry no duplicates. -/
lemma routeKeys_nodup (l : List FlightOffer) : (routeKeys l).Nodup := by
  rw [routeKeys]; exact List.nodup_dedup _

/-- C2: every cell of a heatmap result lies on the returned axes; the
consumer lookup returns the listed score for a listed route and zero for
any unlisted pair; and the dense grid the consumer materializes is
exactly the pointwise lookup over destinations and origins. -/
theorem heatmap_zero_fill (today : Date) (records : List FlightOffer)
    (days : ℕ) (c : HeatCell)
    (hc : c ∈ (DemandHeatmapAggregator.compute today records days).heatmap_data) :
    (c.origin ∈ (DemandHeatmapAggregator.compute today records days).origins ∧
     c.destination ∈ (DemandHeatmapAggregator.compute today records days).destinations) ∧
    lookupScore (DemandHeatmapAggregator.compute today records days).heatmap_data
      c.origin c.destination = c.demand_score ∧
    (∀ cells : List HeatCell, ∀ o d : String,
      (∀ c2 ∈ cells, ¬(c2.origin = o ∧ c2.destination = d)) →
      lookupScore cells o d = 0) ∧
    materializeGrid (DemandHeatmapAggregator.compute today records days) =
      (DemandHeatmapAggregator.compute today records days).destinations.map
        (fun d => (DemandHeatmapAggregator.compute today records days).origins.map
          (fun o => lookupScore
            (DemandHeatmapAggregator.compute today records days).heatmap_data o d)) := by
  simp only [DemandHeatmapAggregator.compute,
    DemandHeatmapAggregator.computeMatched] at hc ⊢
  obtain ⟨p, hp, rfl⟩ := List.mem_map.mp hc
  obtain ⟨r, hr, hpr⟩ := List.mem_map.mp (List.mem_dedup.mp hp)
  refine ⟨⟨?_, ?_⟩, ?_, ?_, rfl⟩
  · show p.1 ∈ List.insertionSort strLE _
    rw [List.mem_insertionSort, List.mem_dedup]
    exact List.mem_map.mpr ⟨r, hr, by rw [← hpr]⟩
  · show p.2 ∈ List.insertionSort strLE _
    rw [List.mem_insertionSort, List.mem_dedup]
    exact List.mem_map.mpr ⟨r, hr, by rw [← hpr]⟩
  · show lookupScore _ p.1 p.2 = _
    rw [lookupScore, findCell_map_keys (heatCellOf (windowFilter today days records))
      (fun q => ⟨rfl, rfl⟩) (routeKeys (windowFilter today days records))
      (routeKeys_nodup _) p hp]
  · intro cells o d hno
    rw [lookupScore, findCell, List.find?_eq_none.mpr]
    intro x hx
    simp only [decide_eq_true_eq]
    exact hno x hx

/-- C2 witness: on the spec example the consumer lookup returns 85 for
the listed SYD-MEL cell. -/
theorem heatmap_zero_fill_witness :
    lookupScore (DemandHeatmapAggregator.compute exToday exRecords 7).heatmap_data
      "SYD" "MEL" = 85 :=
  (heatmap_zero_fill exToday exRecords 7
    { origin := "SYD", destination := "MEL", demand_score := 85 }
    (by rw [exHeatmapEq]; exact List.Mem.head _)).2.1

/-- C7: invalid parameters are rejected at the facade boundary whatever
the store contents, with the matching validation error; an unreachable
store surfaces DataSourceUnavailable, never an ok/empty view. -/
theorem facade_validation (store : Option (List FlightOffer)) (today : Date)
    (days : ℚ) (limit : ℤ) :
    (¬ validWindow days →
      Facade.priceTrends store today days = Except.error FacadeError.InvalidWindow ∧
      Facade.routePopularity store today days limit =
        Except.error FacadeError.InvalidWindow ∧
      Facade.demandHeatmap store today days = Except.error FacadeError.InvalidWindow ∧
      Facade.seasonalPatterns store today days =
        Except.error FacadeError.InvalidWindow) ∧
    (validWindow days → limit ≤ 0 →
      Facade.routePopularity store today days limit =
        Except.error FacadeError.InvalidLimit) ∧
    (validWindow days → store = none →
      Facade.priceTrends store today days =
        Except.error FacadeError.DataSourceUnavailable ∧
      (¬ limit ≤ 0 → Facade.routePopularity store today days limit =
        Except.error FacadeError.DataSourceUnavailable) ∧
      Facade.demandHeatmap store today days =
        Except.error FacadeError.DataSourceUnavailable ∧
      Facade.seasonalPatterns store today days =
        Except.error FacadeError.DataSourceUnavailable ∧
      (∀ v, Facade.priceTrends store today days ≠ Except.ok v)) := by
  refine ⟨?_, ?_, ?_⟩
  · intro h
    rw [Facade.priceTrends, if_neg h, Facade.routePopularity, if_neg h,
      Facade.demandHeatmap, if_neg h, Facade.seasonalPatterns, if_neg h]
    exact ⟨rfl, rfl, rfl, rfl⟩
  · intro h hl
    rw [Facade.routePopularity, if_pos h, if_pos hl]
  · intro h hs
    subst hs
    rw [Facade.priceTrends, if_pos h, Facade.routePopularity, if_pos h,
      Facade.demandHeatmap, if_pos h, Facade.seasonalPatterns, if_pos h]
    refine ⟨rfl, fun hl => ?_, rfl, rfl, fun v hv => ?_⟩
    · rw [if_neg hl]; rfl
    · exact Except.noConfusion hv

/-- C7 witness: a negative window is rejected, a zero limit is rejected,
and with a valid window an unreachable store surfaces
DataSourceUnavailable. -/
theorem facade_validation_witness :
    Facade.priceTrends none exToday (-3) = Except.error FacadeError.InvalidWindow ∧
    Facade.routePopularity none exToday 7 0 = Except.error FacadeError.InvalidLimit ∧
    Facade.priceTrends none exToday 7 = Except.error FacadeError.DataSourceUnavailable := by
  have hv7 : validWindow 7 := ⟨by norm_num, by norm_num⟩
  refine ⟨((facade_validation none exToday (-3) 5).1 ?_).1,
    (facade_validation none exToday 7 0).2.1 hv7 le_rfl,
    ((facade_validation none exToday 7 5).2.2 hv7 rfl).1⟩
  intro hv
  have h1 := hv.1
  norm_num at h1

end Airline
